import Mathlib

/-!
Verification of the two utility scripts of the CD4-csaw repository:
`tool_versions.py` (the Version Prober) and `list-python-modules.py`
(the Module Lister), against their natural-language specification.

The Python code is shallowly embedded: external effects (subprocess
launching, text decoding, regular-expression search, the R runtime, the
file system) are modelled as explicit environment records of total Lean
functions returning `Except`, mirroring Python exceptions. A Python
function that may raise is embedded as a function into `Except PyExn _`;
a caught exception is an `.error` value consumed by the embedded handler.
-/

/-- Python exceptions relevant to the two scripts, tagged by kind.
`rRuntimeError` models `rpy2.rinterface.RRuntimeError`, which
`tool_versions.py` catches selectively. -/
inductive PyExn where
  | osError (msg : String)
  | decodeError (msg : String)
  | reError (msg : String)
  | indexError (msg : String)
  | valueError (msg : String)
  | rRuntimeError (msg : String)
  | fileNotFoundError (path : String)
  deriving DecidableEq, Repr

/-- The `cmd` argument of `get_command_version_string`: either a single
string or a list of argument strings (`isinstance(cmd, str)` dispatch). -/
inductive Cmd where
  | str (s : String)
  | argv (args : List String)
  deriving DecidableEq, Repr

/-- `isinstance(cmd, str)` from line 47 of `tool_versions.py`. -/
def Cmd.isStr : Cmd → Bool
  | .str _ => true
  | .argv _ => false

/-- What `subprocess.Popen(...).communicate()` hands back for a launched
process: the captured stdout and stderr byte streams, plus the exit code
(`returncode`), which `tool_versions.py` never reads. -/
structure ProcResult where
  stdout : List Nat
  stderr : List Nat
  exitCode : Int
  deriving DecidableEq, Repr

/-- A successful `re.search` match, restricted to the only group the
script ever reads: `m.group("version")`, which raises `IndexError` when
the pattern has no group named `version`. -/
structure ReMatch where
  groupVersion : Except PyExn String
  deriving Repr

/-- The external world of `get_command_version_string`:
`launch cmd use_shell` models `subprocess.Popen(...).communicate()`
(an `.error` is a launch failure such as a missing executable);
`decode encoding bytes` models `bytes.decode(encoding)`;
`search regexp text` models `re.search(regexp, text)`, returning
`none` when the pattern does not match. -/
structure Env where
  launch : Cmd → Bool → Except PyExn ProcResult
  decode : String → List Nat → Except PyExn String
  search : String → String → Except PyExn (Option ReMatch)

/-- Stream selection of lines 50-55 of `tool_versions.py`: `None`
concatenates stdout then stderr, `True` keeps stderr only, `False` keeps
stdout only. -/
def selectStream (use_stderr : Option Bool) (p : ProcResult) : List Nat :=
  match use_stderr with
  | none => p.stdout ++ p.stderr
  | some true => p.stderr
  | some false => p.stdout

/-- Lines 56-60 of `tool_versions.py`, after the output bytes have been
selected: decode them, search the regexp, raise `ValueError` on no match,
and otherwise return `prefix + m.group("version") + suffix`
(`pfx`/`sfx` stand for the keyword arguments `prefix`/`suffix`). -/
def matchStage (env : Env) (regexp pfx sfx : String) (encoding : String)
    (output : List Nat) : Except PyExn String :=
  match env.decode encoding output with
  | .error e => .error e
  | .ok text =>
    match env.search regexp text with
    | .error e => .error e
    | .ok none =>
        .error (PyExn.valueError "Regular expression did not match command output")
    | .ok (some m) =>
      match m.groupVersion with
      | .error e => .error e
      | .ok v => .ok (pfx ++ v ++ sfx)

/-- Lines 49-60 of `tool_versions.py` given the outcome of the `Popen`
call: wait for the process, select the streams, then run `matchStage`. -/
def afterLaunch (env : Env) (launched : Except PyExn ProcResult)
    (regexp pfx sfx : String) (use_stderr : Option Bool) (encoding : String) :
    Except PyExn String :=
  match launched with
  | .error e => .error e
  | .ok p => matchStage env regexp pfx sfx encoding (selectStream use_stderr p)

/-- The body of the `try:` block, lines 47-60 of `tool_versions.py`:
`use_shell = isinstance(cmd, str)`, launch, then process the output. -/
def probeVersion (env : Env) (cmd : Cmd) (regexp pfx sfx : String)
    (use_stderr : Option Bool) (encoding : String) : Except PyExn String :=
  afterLaunch env (env.launch cmd cmd.isStr) regexp pfx sfx use_stderr encoding

/-- The `except Exception` handler, lines 61-65 of `tool_versions.py`:
re-raise when `raise_on_error` is set, otherwise return `None`. -/
def wrapErrors (raise_on_error : Bool) (res : Except PyExn String) :
    Except PyExn (Option String) :=
  match res with
  | .ok s => .ok (some s)
  | .error ex => if raise_on_error then .error ex else .ok none

/-- `get_command_version_string` of `tool_versions.py` (lines 46-65).
`.ok (some s)` models returning the string `s`, `.ok none` models
returning `None`, and `.error ex` models raising `ex` to the caller. -/
def get_command_version_string (env : Env) (cmd : Cmd) (regexp pfx sfx : String)
    (use_stderr : Option Bool) (encoding : String) (raise_on_error : Bool) :
    Except PyExn (Option String) :=
  wrapErrors raise_on_error (probeVersion env cmd regexp pfx sfx use_stderr encoding)

/-- Bytes of an ASCII string, for concrete subprocess outputs. -/
def asciiBytes (s : String) : List Nat :=
  s.data.map (fun c => c.toNat)

/-- A concrete decoder for witness environments: decodes 7-bit bytes,
fails on anything else, like `bytes.decode` on a non-decodable input. -/
def asciiDecode (bs : List Nat) : Except PyExn String :=
  if bs.all (fun b => b < 128) then
    .ok (String.mk (bs.map (fun b => Char.ofNat b)))
  else
    .error (PyExn.decodeError "ascii codec cannot decode byte")

/-- An environment in which every launch fails, as when the probed
executable is missing from the search path. -/
def failEnv : Env where
  launch := fun _ _ => .error (PyExn.osError "No such file or directory")
  decode := fun _ bs => asciiDecode bs
  search := fun _ _ => .ok none

/-- C1: whenever the probing body fails with an exception, in the same
situation `get_command_version_string` returns `None` under
`raise_on_error = False` and re-raises that same exception under
`raise_on_error = True`. -/
theorem C1_error_policy (env : Env) (cmd : Cmd) (regexp pfx sfx : String)
    (use_stderr : Option Bool) (encoding : String) (ex : PyExn)
    (h : probeVersion env cmd regexp pfx sfx use_stderr encoding = .error ex) :
    get_command_version_string env cmd regexp pfx sfx use_stderr encoding false
      = .ok none
    ∧ get_command_version_string env cmd regexp pfx sfx use_stderr encoding true
      = .error ex := by
  unfold get_command_version_string
  rw [h]
  exact ⟨rfl, rfl⟩

/-- C1 witness: a concrete failing launch returns `None` by default and
re-raises the launch failure when `raise_on_error` is set. -/
theorem C1_error_policy_witness :
    get_command_version_string failEnv (Cmd.str "nosuchtool --version")
      "v(?P<version>\\S+)" "" "" none "utf-8" false = .ok none
    ∧ get_command_version_string failEnv (Cmd.str "nosuchtool --version")
      "v(?P<version>\\S+)" "" "" none "utf-8" true
      = .error (PyExn.osError "No such file or directory") :=
  C1_error_policy failEnv (Cmd.str "nosuchtool --version")
    "v(?P<version>\\S+)" "" "" none "utf-8"
    (PyExn.osError "No such file or directory") rfl

/- ### A concrete model of `re.search` for the documented example pattern -/

/-- One step of the deterministic automaton for the subpattern
`(\d+\.)*\d+` (equivalently, digit groups separated by dots). State 0 is
the start, state 1 has just read a digit (accepting), state 2 has just
read a dot after a digit. -/
def verStep : Nat → Char → Option Nat
  | 0, c => if c.isDigit then some 1 else none
  | 1, c => if c.isDigit then some 1 else if c = '.' then some 2 else none
  | 2, c => if c.isDigit then some 1 else none
  | _, _ => none

/-- Length of the longest prefix of `cs` accepted by the automaton,
starting from `st` with `cnt` characters already consumed and `best` the
longest accepted point seen so far. This is what the greedy backtracking
match of `(\d+\.)*\d+` returns: the longest prefix of the form
digits, dot, digits, dot, ..., digits. -/
def verLongest (st cnt : Nat) (best : Option Nat) : List Char → Option Nat
  | [] => best
  | c :: cs =>
    match verStep st c with
    | none => best
    | some st2 =>
        verLongest st2 (cnt + 1) (if st2 = 1 then some (cnt + 1) else best) cs

/-- `re.search` restricted to the pattern `v(?P<version>(\d+\.)*\d+)`:
scan left to right for a literal `v` followed by a nonempty match of the
automaton, and return the content of the `version` group of the leftmost
(and, within it, greedy-longest) match. -/
def searchVChars : List Char → Option String
  | [] => none
  | c :: cs =>
    if c = 'v' then
      match verLongest 0 0 none cs with
      | some n => some (String.mk (cs.take n))
      | none => searchVChars cs
    else
      searchVChars cs

/-- String front-end of `searchVChars`. -/
def searchVersion (s : String) : Option String :=
  searchVChars s.data

/-- The example pattern from the docstring and the spec:
`v(?P<version>(\d+\.)*\d+)`. -/
def vPattern : String := "v(?P<version>(\\d+\\.)*\\d+)"

/-- An environment whose probed command prints `tool v2.3.1` to standard
output (stderr empty, exit code 0), with an ASCII decoder and a search
oracle implementing `re.search` for `vPattern`. -/
def toolEnv : Env where
  launch := fun _ _ => .ok ⟨asciiBytes "tool v2.3.1", [], 0⟩
  decode := fun _ bs => asciiDecode bs
  search := fun pat text =>
    if pat = vPattern then
      .ok ((searchVersion text).map (fun v => ⟨Except.ok v⟩))
    else
      .ok none

/-- C2: when the launch succeeds, the selected stream decodes, the regexp
matches and its `version` group is defined, `get_command_version_string`
returns exactly `prefix + version + suffix`, whatever `raise_on_error`
is. -/
theorem C2_success_path (env : Env) (cmd : Cmd) (regexp pfx sfx : String)
    (use_stderr : Option Bool) (encoding : String) (raise_on_error : Bool)
    (p : ProcResult) (text : String) (m : ReMatch) (v : String)
    (h1 : env.launch cmd cmd.isStr = .ok p)
    (h2 : env.decode encoding (selectStream use_stderr p) = .ok text)
    (h3 : env.search regexp text = .ok (some m))
    (h4 : m.groupVersion = .ok v) :
    get_command_version_string env cmd regexp pfx sfx use_stderr encoding
      raise_on_error = .ok (some (pfx ++ v ++ sfx)) := by
  simp [get_command_version_string, probeVersion, afterLaunch, matchStage,
    wrapErrors, h1, h2, h3, h4]

/-- C2 witness: the spec example. A command printing `tool v2.3.1` on
standard output, probed with pattern `v(?P<version>(\d+\.)*\d+)` and
prefix `tool `, yields `tool 2.3.1`. -/
theorem C2_success_path_witness :
    get_command_version_string toolEnv (Cmd.str "tool --version") vPattern
      "tool " "" none "utf-8" false = .ok (some "tool 2.3.1") :=
  C2_success_path toolEnv (Cmd.str "tool --version") vPattern "tool " "" none
    "utf-8" false ⟨asciiBytes "tool v2.3.1", [], 0⟩ "tool v2.3.1"
    ⟨Except.ok "2.3.1"⟩ "2.3.1" rfl rfl rfl rfl

/-- An environment whose probed command prints `tool v2.3.1` to standard
error and nothing to standard output. -/
def stderrToolEnv : Env where
  launch := fun _ _ => .ok ⟨[], asciiBytes "tool v2.3.1", 0⟩
  decode := fun _ bs => asciiDecode bs
  search := fun pat text =>
    if pat = vPattern then
      .ok ((searchVersion text).map (fun v => ⟨Except.ok v⟩))
    else
      .ok none

/-- C3: after a successful launch the searched text is chosen by
`use_stderr` (`None` searches stdout followed by stderr, `True` searches
stderr only, `False` searches stdout only); consequently, when the
version text is absent from stdout, a `use_stderr = False` call returns
`None`. -/
theorem C3_stream_selection (env : Env) (cmd : Cmd) (regexp pfx sfx : String)
    (encoding : String) (p : ProcResult)
    (h : env.launch cmd cmd.isStr = .ok p) :
    (∀ use_stderr : Option Bool,
        probeVersion env cmd regexp pfx sfx use_stderr encoding
          = matchStage env regexp pfx sfx encoding (selectStream use_stderr p))
    ∧ selectStream none p = p.stdout ++ p.stderr
    ∧ selectStream (some true) p = p.stderr
    ∧ selectStream (some false) p = p.stdout
    ∧ (∀ text : String, env.decode encoding p.stdout = .ok text →
        env.search regexp text = .ok none →
        get_command_version_string env cmd regexp pfx sfx (some false) encoding
          false = .ok none) := by
  refine ⟨?_, rfl, rfl, rfl, ?_⟩
  · intro u
    simp [probeVersion, afterLaunch, h]
  · intro text hdec hsearch
    simp [get_command_version_string, probeVersion, afterLaunch, matchStage,
      wrapErrors, selectStream, h, hdec, hsearch]

/-- C3 witness: the version text only appears on standard error, so
probing with `use_stderr = False` finds no match and returns `None`. -/
theorem C3_stream_selection_witness :
    get_command_version_string stderrToolEnv (Cmd.str "tool --version") vPattern
      "tool " "" (some false) "ascii" false = .ok none :=
  (C3_stream_selection stderrToolEnv (Cmd.str "tool --version") vPattern
    "tool " "" "ascii" ⟨[], asciiBytes "tool v2.3.1", 0⟩ rfl).2.2.2.2 "" rfl rfl

/-- Replace the launch outcome of an environment, keeping its decoder
and its regexp engine: two runs in `withLaunchResult env r1` and
`withLaunchResult env r2` are two probe runs in the same world whose
subprocesses behaved differently. -/
def withLaunchResult (env : Env) (res : Except PyExn ProcResult) : Env :=
  { env with launch := fun _ _ => res }

/-- C4: the result never depends on the exit status. Two runs whose
captured stdout and stderr agree produce the same result even when their
exit codes differ. -/
theorem C4_exit_code_irrelevant (env : Env) (cmd : Cmd) (regexp pfx sfx : String)
    (use_stderr : Option Bool) (encoding : String) (raise_on_error : Bool)
    (p q : ProcResult)
    (hout : p.stdout = q.stdout) (herr : p.stderr = q.stderr) :
    get_command_version_string (withLaunchResult env (.ok p)) cmd regexp pfx sfx
      use_stderr encoding raise_on_error
    = get_command_version_string (withLaunchResult env (.ok q)) cmd regexp pfx
      sfx use_stderr encoding raise_on_error := by
  cases p with
  | mk po pe pc =>
    cases q with
    | mk qo qe qc =>
      simp only at hout herr
      subst hout
      subst herr
      cases use_stderr with
      | none => rfl
      | some b => cases b <;> rfl

/-- C4 witness: with identical captured output, an exit-code-1 run and
an exit-code-0 run coincide, and the exit-code-1 run still succeeds with
`tool 2.3.1`. -/
theorem C4_exit_code_irrelevant_witness :
    (get_command_version_string
        (withLaunchResult toolEnv (.ok ⟨asciiBytes "tool v2.3.1", [], 1⟩))
        (Cmd.str "tool --version") vPattern "tool " "" none "utf-8" false
      = get_command_version_string
        (withLaunchResult toolEnv (.ok ⟨asciiBytes "tool v2.3.1", [], 0⟩))
        (Cmd.str "tool --version") vPattern "tool " "" none "utf-8" false)
    ∧ get_command_version_string
        (withLaunchResult toolEnv (.ok ⟨asciiBytes "tool v2.3.1", [], 1⟩))
        (Cmd.str "tool --version") vPattern "tool " "" none "utf-8" false
      = .ok (some "tool 2.3.1") :=
  ⟨C4_exit_code_irrelevant toolEnv (Cmd.str "tool --version") vPattern "tool "
      "" none "utf-8" false ⟨asciiBytes "tool v2.3.1", [], 1⟩
      ⟨asciiBytes "tool v2.3.1", [], 0⟩ rfl rfl,
    rfl⟩

/-- C9: the invocation mode is selected by the representation of `cmd`:
a string command is launched with the shell flag set, an argument-list
command with the shell flag cleared. -/
theorem C9_invocation_mode (env : Env) (regexp pfx sfx : String)
    (use_stderr : Option Bool) (encoding : String) (raise_on_error : Bool) :
    (∀ s : String,
        get_command_version_string env (Cmd.str s) regexp pfx sfx use_stderr
          encoding raise_on_error
        = wrapErrors raise_on_error (afterLaunch env (env.launch (Cmd.str s) true)
            regexp pfx sfx use_stderr encoding))
    ∧ (∀ args : List String,
        get_command_version_string env (Cmd.argv args) regexp pfx sfx use_stderr
          encoding raise_on_error
        = wrapErrors raise_on_error
            (afterLaunch env (env.launch (Cmd.argv args) false)
              regexp pfx sfx use_stderr encoding)) :=
  ⟨fun _ => rfl, fun _ => rfl⟩

/-- C10: with `raise_on_error` at its default `False` the function is
total: for every environment and every argument it returns `.ok` of some
optional string and never propagates an exception. -/
theorem C10_never_raises_by_default (env : Env) (cmd : Cmd)
    (regexp pfx sfx : String) (use_stderr : Option Bool) (encoding : String) :
    ∃ r : Option String,
      get_command_version_string env cmd regexp pfx sfx use_stderr encoding false
        = .ok r := by
  cases hm : probeVersion env cmd regexp pfx sfx use_stderr encoding with
  | ok s => exact ⟨some s, by simp [get_command_version_string, wrapErrors, hm]⟩
  | error e => exact ⟨none, by simp [get_command_version_string, wrapErrors, hm]⟩

/- ### The Module Lister, `list-python-modules.py` -/

/-- One instruction as yielded by `dis.get_instructions`, restricted to
the two fields the script reads: `opname` and `argval`. -/
structure Instruction where
  opname : String
  argval : String
  deriving DecidableEq, Repr

/-- Lines 26-27 of `list-python-modules.py`: keep the instructions whose
`opname` is `IMPORT_NAME`, collect their `argval` into a set. The set is
modelled as the deduplicated list of values; the subsequent `sorted(...)`
makes the iteration order irrelevant. -/
def imports (instrs : List Instruction) : List String :=
  ((instrs.filter (fun x => x.opname == "IMPORT_NAME")).map
    (fun x => x.argval)).dedup

/-- `sorted(imports)` of line 28: the lexicographically sorted listing of
the import set. -/
def sortedImports (instrs : List Instruction) : List String :=
  (imports instrs).insertionSort (fun a b => a ≤ b)

/-- Line 28 of `list-python-modules.py`: the text printed to standard
output, one module name per line, given the disassembly oracle
(`dis.get_instructions`) and the combined text of all collected files. -/
def listerOutput (disassemble : String → List Instruction)
    (fulltext : String) : String :=
  String.intercalate "\n" (sortedImports (disassemble fulltext))

/-- The instruction stream of a corpus importing `os`, then `sys`, then
`os` again. -/
def exampleImportInstrs : List Instruction :=
  [⟨"IMPORT_NAME", "os"⟩, ⟨"LOAD_NAME", "print"⟩, ⟨"IMPORT_NAME", "sys"⟩,
    ⟨"IMPORT_NAME", "os"⟩]

/-- C5: for any fixed corpus, the printed text is exactly the sorted,
duplicate-free listing of the module names appearing as arguments of
`IMPORT_NAME` instructions, one per line; in particular a corpus
importing `os`, `sys` and `os` again lists exactly `os` and `sys`. -/
theorem C5_sorted_unique_imports (disassemble : String → List Instruction)
    (fulltext : String) :
    listerOutput disassemble fulltext
      = String.intercalate "\n" (sortedImports (disassemble fulltext))
    ∧ (sortedImports (disassemble fulltext)).Sorted (fun a b => a ≤ b)
    ∧ (sortedImports (disassemble fulltext)).Nodup
    ∧ (∀ name : String,
        name ∈ sortedImports (disassemble fulltext)
          ↔ ∃ ins ∈ disassemble fulltext,
              ins.opname = "IMPORT_NAME" ∧ ins.argval = name)
    ∧ sortedImports exampleImportInstrs = ["os", "sys"] := by
  refine ⟨rfl, ?_, ?_, ?_, ?_⟩
  · exact List.sorted_insertionSort _ _
  · exact ((List.perm_insertionSort _ _).nodup_iff).mpr (List.nodup_dedup _)
  · intro name
    unfold sortedImports imports
    rw [(List.perm_insertionSort _ _).mem_iff, List.mem_dedup, List.mem_map]
    constructor
    · rintro ⟨x, hx, hval⟩
      rw [List.mem_filter] at hx
      exact ⟨x, hx.1, by simpa using hx.2, hval⟩
    · rintro ⟨ins, hmem, hop, hval⟩
      exact ⟨ins, List.mem_filter.mpr ⟨hmem, by simpa using hop⟩, hval⟩
  · simp [sortedImports, imports, exampleImportInstrs, List.insertionSort,
      List.orderedInsert, List.dedup]
    decide

/- ### Enumeration of candidate files, `list-python-modules.py` lines 10-22 -/

/-- Longest whitespace prefix removal, one half of Python `str.strip()`. -/
def dropLeadingWS : List Char → List Char
  | [] => []
  | c :: cs => if c.isWhitespace then dropLeadingWS cs else c :: cs

/-- Python `str.strip()` with no argument: drop leading and trailing
whitespace. -/
def pyStrip (s : String) : String :=
  String.mk ((dropLeadingWS (dropLeadingWS s.data).reverse).reverse)

/-- Python `str.split('\n')`: cut at every newline, keeping empty pieces;
on the empty string this yields the one-element list `[[]]`, never `[]`. -/
def splitLines : List Char → List (List Char)
  | [] => [[]]
  | c :: cs =>
    if c = '\n' then [] :: splitLines cs
    else
      match splitLines cs with
      | [] => [[c]]
      | l :: ls => (c :: l) :: ls

/-- Lines 10-11 (and identically 12-13) of `list-python-modules.py`:
`check_output("find . -maxdepth 2 -name ...", shell=True)` followed by
`.decode(...).strip().split('\n')`, given the text printed by `find`. -/
def python_files (findOutput : String) : List String :=
  (splitLines (pyStrip findOutput).data).map (fun cs => String.mk cs)

/-- The reading loop of lines 16-18: each candidate path is opened with
`open(pf, mode='rt').read()` and written to the buffer followed by a
newline; a failing `open` propagates. `readFile` models `open(...).read()`. -/
def gatherSources (readFile : String → Except PyExn String) :
    List String → Except PyExn String
  | [] => .ok ""
  | f :: rest =>
    match readFile f with
    | .error e => .error e
    | .ok t =>
      match gatherSources readFile rest with
      | .error e => .error e
      | .ok r => .ok (t ++ "\n" ++ r)

/-- A directory in which no candidate file exists: every `open` raises
`FileNotFoundError`; in particular `open('')` does. -/
def emptyDirFS : String → Except PyExn String :=
  fun path => .error (PyExn.fileNotFoundError path)

/-- C6: when `find` matches nothing it prints the empty string, and the
split of lines 10-11 then yields `[""]` — one empty-string candidate, not
an empty collection — so the reading loop runs once, tries to open the
empty path, and the run aborts with `FileNotFoundError` instead of
completing. -/
theorem C6_empty_match_breaks_enumeration :
    python_files "" = [""]
    ∧ python_files "" ≠ []
    ∧ gatherSources emptyDirFS (python_files "")
        = .error (PyExn.fileNotFoundError "") := by
  refine ⟨rfl, ?_, rfl⟩
  intro h
  rw [show python_files "" = [""] from rfl] at h
  exact List.cons_ne_nil "" [] h

/- ### The R runtime helpers and the version table, `tool_versions.py` 67-111 -/

/-- A value of the R vector `installed.packages()[,"Version"]` selected
at a package name: either the not-available marker `NA` (package not
installed) or a version string. -/
inductive RVal where
  | na
  | strv (s : String)
  deriving DecidableEq, Repr

/-- The body of the `try:` block of `R_package_version`, lines 103-109:
look the package up in the installed-package registry (which may itself
raise), raise `ValueError` when the registry reports `NA`, and otherwise
return `' '.join([pkgname, pkgversion])`. `registry pkg` models
`r('installed.packages()[,"Version"]').rx(pkg)[0]` combined with the
`r['is.na']` test on the retrieved value. -/
def R_package_version_body (registry : String → Except PyExn RVal)
    (pkgname : String) : Except PyExn String :=
  match registry pkgname with
  | .error e => .error e
  | .ok RVal.na =>
      .error (PyExn.valueError
        ("Could not determine package version for " ++ pkgname
          ++ ". Maybe the package is not installed?"))
  | .ok (RVal.strv v) => .ok (pkgname ++ " " ++ v)

/-- `R_package_version` of `tool_versions.py` (lines 102-111): any
exception escaping the body is caught by the bare `except Exception`
handler and converted to `None`. -/
def R_package_version (registry : String → Except PyExn RVal)
    (pkgname : String) : Option String :=
  match R_package_version_body registry pkgname with
  | .ok s => some s
  | .error _ => none

/-- A registry in which no package is installed: every lookup yields the
`NA` marker. -/
def emptyRegistry : String → Except PyExn RVal :=
  fun _ => .ok RVal.na

/-- C7: when the installed-package registry reports `NA` for a package,
`R_package_version` returns `None` instead of raising: the `ValueError`
raised inside the body is swallowed by the broad handler. -/
theorem C7_na_package_returns_none (registry : String → Except PyExn RVal)
    (pkgname : String) (h : registry pkgname = .ok RVal.na) :
    R_package_version registry pkgname = none := by
  simp [R_package_version, R_package_version_body, h]

/-- C7 witness: querying a package that is not installed returns `None`. -/
theorem C7_na_package_returns_none_witness :
    R_package_version emptyRegistry "nonexistent-package" = none :=
  C7_na_package_returns_none emptyRegistry "nonexistent-package" rfl

/-- The interpreter's default text encoding, `sys.getdefaultencoding()`
(UTF-8 on every supported platform); the default of the `encoding`
keyword argument. -/
def sys_getdefaultencoding : String := "utf-8"

/-- Line 67 of `tool_versions.py`:
`shutil.which("ascp") or os.path.expanduser("~/.aspera/connect/bin/ascp")`,
given the `which` lookup oracle and the home directory `~` expands to. -/
def ascp_path (which : String → Option String) (home : String) : String :=
  match which "ascp" with
  | some p => p
  | none => home ++ "/.aspera/connect/bin/ascp"

/-- One table entry, lines 72-85: `get_command_version_string` called
with a command, a pattern and a prefix, all other arguments left at
their defaults (`raise_on_error = False`, so the `.error` branch is
unreachable and the stored value is the returned optional string). -/
def probeEntry (env : Env) (cmd : Cmd) (regexp pfx : String) : Option String :=
  match get_command_version_string env cmd regexp pfx "" none
      sys_getdefaultencoding false with
  | .ok r => r
  | .error _ => none

/-- The embedded R interpreter: `rEval expr` models `r(expr)`, returning
the character vector produced by evaluating `expr`, or raising. -/
structure REnv where
  rEval : String → Except PyExn (List String)

/-- Lines 88-93: `''.join(r('R.version$version.string'))` guarded by
`except RRuntimeError`, which alone is converted to a null entry; any
other exception escapes the module-level construction. -/
def rVersionEntry (renv : REnv) : Except PyExn (Option String) :=
  match renv.rEval "R.version$version.string" with
  | .ok parts => .ok (some (String.join parts))
  | .error (PyExn.rRuntimeError _) => .ok none
  | .error e => .error e

/-- Lines 95-100:
`'Bioconductor ' + "".join(r('as.character(BiocInstaller::biocVersion())'))`
guarded by `except RRuntimeError`. -/
def biocVersionEntry (renv : REnv) : Except PyExn (Option String) :=
  match renv.rEval "as.character(BiocInstaller::biocVersion())" with
  | .ok parts => .ok (some ("Bioconductor " ++ String.join parts))
  | .error (PyExn.rRuntimeError _) => .ok none
  | .error e => .error e

/-- The module-level construction of `SOFTWARE_VERSIONS`, lines 67-100 of
`tool_versions.py`: the fourteen probes in source order, then the `R` and
`BIOC` entries. The Python dict with its insertion-ordered string keys is
modelled as the association list built in the same order; `.error` models
an exception aborting the module import. -/
def buildSOFTWARE_VERSIONS (env : Env) (which : String → Option String)
    (home : String) (renv : REnv) :
    Except PyExn (List (String × Option String)) :=
  let base : List (String × Option String) :=
    [ ("ASCP", probeEntry env (Cmd.argv [ascp_path which home, "--version"])
        "ascp version\\s+(?P<version>\\S+)" "ascp ")
    , ("BEDTOOLS", probeEntry env (Cmd.str "bedtools --version")
        "bedtools\\s+(?P<version>\\S+)" "bedtools ")
    , ("BOWTIE2", probeEntry env (Cmd.str "bowtie2 --version")
        "version\\s+(?P<version>\\S+)" "bowtie2 ")
    , ("CUFFLINKS", probeEntry env (Cmd.str "cufflinks --help")
        "cufflinks v(?P<version>\\S+)" "cufflinks ")
    , ("EPIC", probeEntry env (Cmd.str "epic --version")
        "epic\\s+(?P<version>\\S+)" "epic ")
    , ("FASTQ_TOOLS", probeEntry env (Cmd.str "fastq-sort --version")
        "(?P<version>\\d+(\\.\\d+)*)" "fastq-tools ")
    , ("HISAT2", probeEntry env (Cmd.str "hisat2 --version")
        "version\\s+(?P<version>\\S+)" "hisat2 ")
    , ("IDR", probeEntry env (Cmd.str "idr --version")
        "(?P<version>\\d+(\\.\\d+)*)" "IDR ")
    , ("KALLISTO", probeEntry env (Cmd.str "kallisto")
        "^kallisto\\s+(?P<version>\\S+)" "kallisto ")
    , ("MACS", probeEntry env (Cmd.str "macs2 --version")
        "macs2\\s+(?P<version>\\S+)" "macs2 ")
    , ("SALMON", probeEntry env (Cmd.str "salmon --version")
        "version\\s+:\\s+(?P<version>\\S+)" "salmon ")
    , ("SAMTOOLS", probeEntry env (Cmd.str "samtools")
        "Version:\\s+(?P<version>\\S+)" "samtools ")
    , ("SRATOOLKIT", probeEntry env (Cmd.str "fastq-dump --version")
        ":\\s+(?P<version>\\S+)" "sratoolkit ")
    , ("STAR", probeEntry env (Cmd.str "STAR --version")
        "STAR_(?P<version>\\S+)" "STAR ") ]
  match rVersionEntry renv with
  | .error e => .error e
  | .ok rE =>
    match biocVersionEntry renv with
    | .error e => .error e
    | .ok bE => .ok (base ++ [("R", rE), ("BIOC", bE)])

/-- An R runtime in which every evaluation fails with `RRuntimeError`,
as when the statistical runtime is absent. -/
def downREnv : REnv where
  rEval := fun _ => .error (PyExn.rRuntimeError "R runtime unavailable")

/-- C8: constructing the version table twice against unchanged
environments (same launch, decoding and search behaviour, same `which`
lookups, same home directory, same R runtime) yields identical tables:
the construction is a pure function of the environment, with no hidden
state carried from the first run to the second. -/
theorem C8_table_construction_idempotent (env1 env2 : Env)
    (which1 which2 : String → Option String) (home1 home2 : String)
    (renv1 renv2 : REnv)
    (henv : env1 = env2) (hwhich : which1 = which2) (hhome : home1 = home2)
    (hrenv : renv1 = renv2) :
    buildSOFTWARE_VERSIONS env1 which1 home1 renv1
      = buildSOFTWARE_VERSIONS env2 which2 home2 renv2 := by
  subst henv
  subst hwhich
  subst hhome
  subst hrenv
  rfl

/-- C8 witness: two constructions in a fixed concrete environment (no
executables installed, no R runtime) agree. -/
theorem C8_table_construction_idempotent_witness :
    buildSOFTWARE_VERSIONS failEnv (fun _ => none) "/home/user" downREnv
      = buildSOFTWARE_VERSIONS failEnv (fun _ => none) "/home/user" downREnv :=
  C8_table_construction_idempotent failEnv failEnv (fun _ => none)
    (fun _ => none) "/home/user" "/home/user" downREnv downREnv
    rfl rfl rfl rfl
